import Mathlib

/-!
Verification of the habitat simulator wrapper
(`habitat/sims/habitat_simulator/habitat_simulator.py`).

The Python module is shallowly embedded: Python objects with attributes and
Python dicts become association lists, engine capabilities (pathfinding,
contact tests, random draws, sensor buffers) become explicit oracle
parameters, and mutation becomes state passing.  Machine floats are modelled
as rationals, and the exact arithmetic of the source is reproduced.
-/

namespace HabitatSimModel

/-! ### Attribute / dict model

Python attribute access (`getattr` / `setattr` / `hasattr`) and `dict`
key-value binding are modelled by association lists: `setattr` rebinds the
first (and, for robustness, every) occurrence of an existing key in place and
appends a fresh binding otherwise, exactly the observable semantics of
attribute assignment. -/

def hasattr {α β : Type} [DecidableEq α] : List (α × β) → α → Bool
  | [], _ => false
  | kv :: t, k => kv.1 = k || hasattr t k

def getattr {α β : Type} [DecidableEq α] : List (α × β) → α → Option β
  | [], _ => none
  | kv :: t, k => if kv.1 = k then some kv.2 else getattr t k

/-- Rebind every occurrence of key `k`, keeping the key set unchanged. -/
def setattrKeep {α β : Type} [DecidableEq α] : List (α × β) → α → β → List (α × β)
  | [], _, _ => []
  | kv :: t, k, v => (if kv.1 = k then (k, v) else kv) :: setattrKeep t k v

def setattr {α β : Type} [DecidableEq α] (t : List (α × β)) (k : α) (v : β) :
    List (α × β) :=
  if hasattr t k then setattrKeep t k v else t ++ [(k, v)]

/-! ### Configuration values

`Config` nodes (Habitat Lab configuration) versus engine-native structures:
a value carried by a config field is a scalar, a string, a list, a nested
`Config` node, or a plain mapping (the result of lowering a node). -/

inductive CVal : Type where
  | num : ℚ → CVal
  | str : String → CVal
  | list : List ℚ → CVal
  | node : List (String × CVal) → CVal
  | dict : List (String × CVal) → CVal
deriving Repr

/-- `if_config_to_lower` (source lines 65–69): a nested `Config` value is
turned into a plain mapping with its (top-level) keys lower-cased; every
other value passes through unchanged. -/
def if_config_to_lower : CVal → CVal
  | CVal.node kvs => CVal.dict (kvs.map (fun kv => (kv.1.toLower, kv.2)))
  | v => v

/-- `overwrite_config` (source lines 54–73): for each source field, when the
target has an attribute named by the lower-cased field name, that attribute
is overwritten with the (possibly lowered) source value; otherwise the field
is skipped. -/
def overwrite_config (config_from : List (String × CVal))
    (config_to : List (String × CVal)) : List (String × CVal) :=
  config_from.foldl
    (fun t av =>
      if hasattr t av.1.toLower then
        setattr t av.1.toLower (if_config_to_lower av.2)
      else t)
    config_to

/-- The value the translator assigns to target attribute `k`: the transformed
value of the last source field whose lower-cased name is `k`, if any. -/
def sourceValue : List (String × CVal) → String → Option CVal
  | [], _ => none
  | av :: rest, k =>
    match sourceValue rest k with
    | some v => some v
    | none => if av.1.toLower = k then some (if_config_to_lower av.2) else none


/-! ### Sensor abstraction layer

Raw engine buffers are modelled by `NDArray`: a shape together with the
flattened (channel-last, row-major) data.  The engine's per-step output
`sim_obs` is a dict from sensor uuid to buffer, modelled as an association
list; `dict.get(uuid, None)` is `getattr`. -/

structure NDArray where
  shape : List Nat
  data : List ℚ
deriving Repr, DecidableEq

def RGBSENSOR_DIMENSION : Nat := 3

/-- Channel-last slicing `obs[:, :, :keep]` on the flattened data: keep the
first `keep` entries of every `chan`-sized chunk. -/
def sliceChannels (chan keep : Nat) : List ℚ → List ℚ
  | [] => []
  | x :: xs =>
    if chan = 0 then []
    else (x :: xs).take keep ++ sliceChannels chan keep ((x :: xs).drop chan)
termination_by xs => xs.length
decreasing_by simp; omega

/-- The alpha-channel removal `obs[:, :, :RGBSENSOR_DIMENSION]` (source
line 99).  The raw visual-color buffer is three-dimensional. -/
def dropAlpha (a : NDArray) : NDArray :=
  match a.shape with
  | [h, w, c] =>
    { shape := [h, w, min c RGBSENSOR_DIMENSION],
      data := sliceChannels c RGBSENSOR_DIMENSION a.data }
  | s => { shape := s, data := a.data }

/-- `check_sim_obs` (source lines 178–182) asserts the buffer is present; the
failure is fatal, modelled by `Except.error` carrying the assertion text. -/
def missingObsMessage (uuid : String) : String :=
  "Observation corresponding to " ++ uuid ++
    " not present in simulator observations"

/-- `HabitatSimRGBSensor.get_observation` (source lines 92–100). -/
def rgb_get_observation (uuid : String) (sim_obs : List (String × NDArray)) :
    Except String NDArray :=
  match getattr sim_obs uuid with
  | none => Except.error (missingObsMessage uuid)
  | some obs => Except.ok (dropAlpha obs)

structure DepthSensorConfig where
  MIN_DEPTH : ℚ
  MAX_DEPTH : ℚ
  NORMALIZE_DEPTH : Bool
  HEIGHT : Nat
  WIDTH : Nat
deriving Repr, DecidableEq

/-- `HabitatSimDepthSensor.__init__` (source lines 109–119): the bound
advertised by the observation space. -/
def min_depth_value (config : DepthSensorConfig) : ℚ :=
  if config.NORMALIZE_DEPTH then 0 else config.MIN_DEPTH

def max_depth_value (config : DepthSensorConfig) : ℚ :=
  if config.NORMALIZE_DEPTH then 1 else config.MAX_DEPTH

structure ObsSpace where
  low : ℚ
  high : ℚ
  shape : List Nat
deriving Repr, DecidableEq

/-- `HabitatSimDepthSensor._get_observation_space` (source lines 121–127). -/
def depth_observation_space (config : DepthSensorConfig) : ObsSpace :=
  { low := min_depth_value config
    high := max_depth_value config
    shape := [config.HEIGHT, config.WIDTH, 1] }

/-- `np.clip(x, lo, hi)`. -/
def npClip (x lo hi : ℚ) : ℚ := min (max x lo) hi

/-- `np.expand_dims(obs, axis=2)` at shape level: insert a singleton
dimension at position 2. -/
def expandDimsAxis2 (s : List Nat) : List Nat := s.take 2 ++ 1 :: s.drop 2

/-- The body of `HabitatSimDepthSensor.get_observation` after the presence
check (source lines 134–151): clip to `[MIN_DEPTH, MAX_DEPTH]`, add the
trailing channel dimension, then normalize if configured. -/
def depthTransform (config : DepthSensorConfig) (obs : NDArray) : NDArray :=
  let clipped : NDArray :=
    { obs with
      data := obs.data.map (fun x => npClip x config.MIN_DEPTH config.MAX_DEPTH) }
  let expanded : NDArray := { clipped with shape := expandDimsAxis2 clipped.shape }
  if config.NORMALIZE_DEPTH then
    { expanded with
      data := expanded.data.map
        (fun x => (x - config.MIN_DEPTH) / (config.MAX_DEPTH - config.MIN_DEPTH)) }
  else expanded

/-- `HabitatSimDepthSensor.get_observation` (source lines 129–151). -/
def depth_get_observation (config : DepthSensorConfig) (uuid : String)
    (sim_obs : List (String × NDArray)) : Except String NDArray :=
  match getattr sim_obs uuid with
  | none => Except.error (missingObsMessage uuid)
  | some obs => Except.ok (depthTransform config obs)

/-- `HabitatSimSemanticSensor.get_observation` (source lines 170–175): the
transform is the identity. -/
def semantic_get_observation (uuid : String)
    (sim_obs : List (String × NDArray)) : Except String NDArray :=
  match getattr sim_obs uuid with
  | none => Except.error (missingObsMessage uuid)
  | some obs => Except.ok obs

def isError {ε α : Type} : Except ε α → Bool
  | Except.error _ => true
  | Except.ok _ => false

/-! ### Geometry: vectors and quaternions -/

structure Vec3 where
  x : ℚ
  y : ℚ
  z : ℚ
deriving Repr, DecidableEq

def vadd (a b : Vec3) : Vec3 := ⟨a.x + b.x, a.y + b.y, a.z + b.z⟩

/-- A quaternion `qx*i + qy*j + qz*k + qw` (vector part first, scalar last,
as in the coefficient lists the source passes around). -/
structure Quat where
  qx : ℚ
  qy : ℚ
  qz : ℚ
  qw : ℚ
deriving Repr, DecidableEq

/-- Hamilton product, the `*` of `mn.Quaternion`. -/
def quatMul (a b : Quat) : Quat :=
  { qx := a.qw * b.qx + a.qx * b.qw + a.qy * b.qz - a.qz * b.qy
    qy := a.qw * b.qy - a.qx * b.qz + a.qy * b.qw + a.qz * b.qx
    qz := a.qw * b.qz + a.qx * b.qy - a.qy * b.qx + a.qz * b.qw
    qw := a.qw * b.qw - a.qx * b.qx - a.qy * b.qy - a.qz * b.qz }

def quatId : Quat := ⟨0, 0, 0, 1⟩

/-! ### Agent state (`set_agent_state`, `get_observations_at`)

The engine-side agent is modelled by its body pose, the absolute per-sensor
pose overrides (`sensor_states`), and the sensor-local pose changes (e.g.
tilt) that `reset_sensors` resets (source docstring lines 664–665). -/

structure SensorPose where
  position : Vec3
  rotation : Quat
deriving Repr, DecidableEq

/-- `habitat_sim.AgentState` as used by the wrapper: body position, body
rotation, and absolute sensor-state overrides. -/
structure AgentState where
  position : Vec3
  rotation : Quat
  sensor_states : List (String × SensorPose)
deriving Repr, DecidableEq

structure Agent where
  position : Vec3
  rotation : Quat
  sensor_states : List (String × SensorPose)
  sensor_offsets : List (String × SensorPose)
deriving Repr, DecidableEq

/-- Engine capability `agent.get_state()`. -/
def agent_get_state (agent : Agent) : AgentState :=
  ⟨agent.position, agent.rotation, agent.sensor_states⟩

/-- Engine capability `agent.set_state(state, reset_sensors)`: applies the
body pose and the absolute sensor overrides; when `reset_sensors` is set the
sensor-local changes (e.g. tilt) are reset to their configured defaults. -/
def agent_set_state (defaults : List (String × SensorPose)) (agent : Agent)
    (state : AgentState) (reset_sensors : Bool) : Agent :=
  { position := state.position
    rotation := state.rotation
    sensor_states := state.sensor_states
    sensor_offsets := if reset_sensors then defaults else agent.sensor_offsets }

/-- `HabitatSim.set_agent_state` (source lines 647–683): copy the current
state, override body position and rotation, clear `sensor_states` so the
sensors follow the body, hand the state to the engine, and return `True`
unconditionally. -/
def set_agent_state (defaults : List (String × SensorPose)) (agent : Agent)
    (position : Vec3) (rotation : Quat) (reset_sensors : Bool) : Agent × Bool :=
  let new_state := agent_get_state agent
  let new_state := { new_state with position := position, rotation := rotation }
  let new_state := { new_state with sensor_states := [] }
  (agent_set_state defaults agent new_state reset_sensors, true)

/-- `HabitatSim.get_observations_at` (source lines 685–713).  `getObs` stands
for `get_sensor_observations` composed with the sensor suite; it reads the
agent's pose.  When `position` or `rotation` is `None` no relocation is
attempted and `success` is hard-wired to `True`. -/
def get_observations_at {Obs : Type} (getObs : Agent → Obs)
    (defaults : List (String × SensorPose)) (agent : Agent)
    (position : Option Vec3) (rotation : Option Quat)
    (keep_agent_at_new_pose : Bool) : Option Obs × Agent :=
  let current_state := agent_get_state agent
  let moved : Agent × Bool :=
    match position, rotation with
    | some p, some r => set_agent_state defaults agent p r false
    | _, _ => (agent, true)
  if moved.2 then
    let observations := getObs moved.1
    let final : Agent :=
      if keep_agent_at_new_pose then moved.1
      else
        (set_agent_state defaults moved.1 current_state.position
          current_state.rotation false).1
    (some observations, final)
  else (none, moved.1)

/-! ### Object placement sampler (`sample_object_state`, source lines 460–532)

The engine is an oracle bundle: the random draws are explicit streams
indexed by the attempt counter, and the geometric queries (transformed
bounding box, contact test) are functions of the object's pose; the
surrounding scene geometry is fixed inside the oracles. -/

inductive MotionType where
  | STATIC
  | KINEMATIC
  | DYNAMIC
deriving Repr, DecidableEq

structure ObjPose where
  translation : Vec3
  rotation : Quat
deriving Repr, DecidableEq

structure BBox where
  bmin : Vec3
  bmax : Vec3
deriving Repr, DecidableEq

structure PlacementEngine where
  pathfinderLoaded : Bool
  randNavPoint : Nat → Vec3
  randBoxPoint : Nat → Vec3
  randYRot : Nat → Quat
  randQuat : Nat → Quat
  bbSizeY : ObjPose → ℚ
  contact : ObjPose → Bool

/-- `scene_collision_margin = 0.04` (source line 486). -/
def scene_collision_margin : ℚ := 4 / 100

/-- One iteration of the retry loop (source lines 488–528): draw a location
(navmesh point or box point), overwrite the translation, draw a rotation
(`maintain_object_up`: a Y-axis rotation composed onto the current rotation;
otherwise an unconstrained draw — source line 510 writes
`ut.random_quaternion()` with `ut` unqualified, modelled as the intended
unconstrained draw), and, when sampling from the navmesh, raise the object
by half its transformed bounding-box height plus the collision margin. -/
def sampleAttempt (eng : PlacementEngine)
    (from_navmesh maintain_object_up : Bool) (k : Nat) (pose : ObjPose) :
    ObjPose :=
  let sample_location := if from_navmesh then eng.randNavPoint k else eng.randBoxPoint k
  let pose := { pose with translation := sample_location }
  let pose :=
    if maintain_object_up then
      { pose with rotation := quatMul (eng.randYRot k) pose.rotation }
    else
      { pose with rotation := eng.randQuat k }
  if from_navmesh then
    let y_translation : Vec3 := ⟨0, eng.bbSizeY pose / 2 + scene_collision_margin, 0⟩
    { pose with translation := vadd y_translation pose.translation }
  else pose

/-- The `while not valid_placement and tries < max_tries` loop, structurally
recursing on the remaining tries; `tries` is the attempt counter and doubles
as the index into the random streams.  Returns the loop outcome, the number
of attempts performed, and the final pose of the object. -/
def sampleLoop (eng : PlacementEngine)
    (from_navmesh maintain_object_up : Bool) (tries remaining : Nat)
    (pose : ObjPose) : Bool × Nat × ObjPose :=
  match remaining with
  | 0 => (false, tries, pose)
  | n + 1 =>
    let pose1 := sampleAttempt eng from_navmesh maintain_object_up tries pose
    if eng.contact pose1 then
      sampleLoop eng from_navmesh maintain_object_up (tries + 1) n pose1
    else (true, tries + 1, pose1)

/-- The pose after running `j` consecutive attempts starting at stream
index `k` — the deterministic unrolling of the loop body. -/
def poseIter (eng : PlacementEngine)
    (from_navmesh maintain_object_up : Bool) : Nat → Nat → ObjPose → ObjPose
  | _, 0, pose => pose
  | k, j + 1, pose =>
    poseIter eng from_navmesh maintain_object_up (k + 1) j
      (sampleAttempt eng from_navmesh maintain_object_up k pose)

structure SampledObject where
  pose : ObjPose
  motionType : MotionType
deriving Repr, DecidableEq

structure SampleResult where
  ok : Bool
  tries : Nat
  pose : ObjPose
  log : List String
deriving Repr, DecidableEq

/-- `sample_object_state` (source lines 460–532).  The `log` records printed
diagnostics.  Faithful to the source, the STATIC precondition check at lines
469–473 only prints `"... Object is STATIC, aborting."` and falls through:
there is no early return, so the body proceeds to mutate the object. -/
def sample_object_state (eng : PlacementEngine) (obj : SampledObject)
    (from_navmesh maintain_object_up : Bool) (max_tries : Nat)
    (bb : Option BBox) : SampleResult :=
  let log : List String :=
    if obj.motionType = MotionType.STATIC then
      ["sample_object_state : Object is STATIC, aborting."]
    else []
  if from_navmesh ∧ eng.pathfinderLoaded = false then
    { ok := false, tries := 0, pose := obj.pose
      log := log ++ ["sample_object_state : No pathfinder, aborting."] }
  else if from_navmesh = false ∧ bb = none then
    { ok := false, tries := 0, pose := obj.pose
      log := log ++
        ["sample_object_state : from_navmesh not specified and no bounding box provided, aborting."] }
  else
    let r := sampleLoop eng from_navmesh maintain_object_up 0 max_tries obj.pose
    { ok := r.1, tries := r.2.1, pose := r.2.2, log := log }

/-! ### Geodesic distance with per-episode cache (source lines 534–558) -/

structure MultiGoalShortestPath where
  requested_ends : List Vec3
  requested_start : Vec3
  geodesic_dist : ℚ
deriving Repr, DecidableEq

/-- A freshly constructed `habitat_sim.MultiGoalShortestPath()`; its initial
`geodesic_distance` is never read — `find_path` overwrites it before the
wrapper returns it. -/
def freshMultiGoalShortestPath : MultiGoalShortestPath :=
  { requested_ends := [], requested_start := ⟨0, 0, 0⟩, geodesic_dist := 0 }

/-- `position_b` is either a single point or a sequence of points; the source
distinguishes the two by `isinstance(position_b[0], (Sequence, np.ndarray))`. -/
inductive GoalSpec where
  | single : Vec3 → GoalSpec
  | multiple : List Vec3 → GoalSpec
deriving Repr, DecidableEq

/-- The episode object as used here: only its `_shortest_path_cache` slot. -/
structure EpisodeCache where
  shortest_path_cache : Option MultiGoalShortestPath
deriving Repr, DecidableEq

/-- Construction of the fresh query (source lines 541–547): a single goal is
normalized into a one-element `requested_ends` list. -/
def freshPath (position_b : GoalSpec) : MultiGoalShortestPath :=
  { freshMultiGoalShortestPath with
    requested_ends :=
      match position_b with
      | GoalSpec.single v => [v]
      | GoalSpec.multiple vs => vs }

/-- `HabitatSim.geodesic_distance` (source lines 534–558).  `find_path` is
the engine's path search: given the requested start and end set it yields the
geodesic distance the search writes back into the query object.  Returns the
distance together with the episode as left behind (its cache slot is filled
whenever an episode was supplied). -/
def geodesic_distance (find_path : Vec3 → List Vec3 → ℚ)
    (position_a : Vec3) (position_b : GoalSpec)
    (episode : Option EpisodeCache) : ℚ × Option EpisodeCache :=
  let path :=
    match episode with
    | none => freshPath position_b
    | some e =>
      match e.shortest_path_cache with
      | none => freshPath position_b
      | some p => p
  let path := { path with requested_start := position_a }
  let path :=
    { path with
      geodesic_dist := find_path path.requested_start path.requested_ends }
  let episode1 : Option EpisodeCache :=
    match episode with
    | none => none
    | some _ => some { shortest_path_cache := some path }
  (path.geodesic_dist, episode1)

/-! ### Scene lifecycle (`reconfigure`, `_initialize_THDA_scene`)

The simulator's lifecycle-relevant state: the active scene id, counters for
engine instantiation / close / config rebuild / agent-state reapplication /
navmesh recomputation, the instantiated objects, and the three id-mapping
dicts.  Engine object ids from `add_object_by_handle` are modelled by a
fresh counter. -/

structure ObjectDesc where
  object_template : String
  position : Option Vec3
  rotation : Option Quat
  scale : Option Vec3
  object_id : Nat
  semantic_category_id : Nat
deriving Repr, DecidableEq

structure HabitatConfig where
  SCENE : String
  scene_state : Option (List ObjectDesc)
deriving Repr, DecidableEq

structure ObjectInstance where
  instanceId : Nat
  descId : Nat
  semanticCategoryId : Nat
  pose : ObjPose
  motionType : MotionType
deriving Repr, DecidableEq

structure SimState where
  current_scene : String
  engineInstantiations : Nat
  closeCount : Nat
  simConfigRebuilds : Nat
  agentStateUpdates : Nat
  navmeshRecomputes : Nat
  nextObjectId : Nat
  objects : List ObjectInstance
  sim_object_to_objid_mapping : List (Nat × Nat)
  objid_to_sim_object_mapping : List (Nat × Nat)
  obj_sem_id_to_sem_category_mapping : List (Nat × Nat)
deriving Repr, DecidableEq

/-- The object template manager (engine capability):
`get_file_template_handles` and `load_object_configs`. -/
structure TemplateManager where
  fileHandles : String → List String
  loadConfigIds : String → List Nat

/-- Template resolution (source lines 387–417): reuse an existing file
template handle if one matches; otherwise load the object config, asserting
that at least one template id results — a fatal assertion otherwise.
Registration details (scale override, `register_template`) only affect the
template table, which no claim observes. -/
def resolveTemplate (mgr : TemplateManager) (d : ObjectDesc) :
    Except String Unit :=
  if (mgr.fileHandles d.object_template).length ≥ 1 then Except.ok ()
  else if (mgr.loadConfigIds d.object_template).length > 0 then Except.ok ()
  else Except.error ("Object template not found: " ++ d.object_template)

/-- The default pose a freshly added object carries before the descriptor
pose (or the sampler) is applied. -/
def defaultObjPose : ObjPose := ⟨⟨0, 0, 0⟩, quatId⟩

/-- The pose an object ends the THDA iteration with (source lines 434–445):
the descriptor's explicit position (and rotation, when given; the engine
default rotation otherwise), or — when no position is given — the pose left
behind by the placement sampler invoked with its default arguments. -/
def thdaPlacedPose (eng : PlacementEngine) (d : ObjectDesc) : ObjPose :=
  match d.position with
  | some p =>
    { translation := p
      rotation :=
        match d.rotation with
        | some r => r
        | none => defaultObjPose.rotation }
  | none =>
    (sample_object_state eng ⟨defaultObjPose, MotionType.DYNAMIC⟩
      true true 100 none).pose

/-- The state change of one iteration of the THDA object loop (source lines
382–452) once the template resolved: `add_object_by_handle` (a fresh engine
id; the object is DYNAMIC until line 449), record the two id mappings and
the semantic-category mapping (dict assignment = `setattr`), place the
object (a sampler invocation implies a navmesh recompute), and finally set
its motion type to STATIC (line 449). -/
def thdaStep (eng : PlacementEngine) (st : SimState) (d : ObjectDesc) :
    SimState :=
  { st with
    nextObjectId := st.nextObjectId + 1
    objects := st.objects ++
      [⟨st.nextObjectId, d.object_id, d.semantic_category_id,
        thdaPlacedPose eng d, MotionType.STATIC⟩]
    sim_object_to_objid_mapping :=
      setattr st.sim_object_to_objid_mapping st.nextObjectId d.object_id
    objid_to_sim_object_mapping :=
      setattr st.objid_to_sim_object_mapping d.object_id st.nextObjectId
    obj_sem_id_to_sem_category_mapping :=
      setattr st.obj_sem_id_to_sem_category_mapping d.object_id
        d.semantic_category_id
    navmeshRecomputes :=
      st.navmeshRecomputes + (match d.position with | some _ => 0 | none => 1) }

/-- One iteration of the THDA object loop: template resolution is the only
fallible part (a failed assertion is fatal). -/
def processTHDAObject (eng : PlacementEngine) (mgr : TemplateManager)
    (st : SimState) (d : ObjectDesc) : Except String SimState :=
  match resolveTemplate mgr d with
  | Except.error e => Except.error e
  | Except.ok _ => Except.ok (thdaStep eng st d)

/-- `remove_all_objects` plus the up-front navmesh recompute (source lines
362–363). -/
def thdaCleared (st : SimState) : SimState :=
  { st with objects := [], navmeshRecomputes := st.navmeshRecomputes + 1 }

/-- The mapping-dict reset inside `_initialize_THDA_scene` (source lines
377–379). -/
def thdaResetMaps (st : SimState) : SimState :=
  { st with
    sim_object_to_objid_mapping := []
    objid_to_sim_object_mapping := []
    obj_sem_id_to_sem_category_mapping := [] }

/-- `_initialize_THDA_scene` (source lines 360–458): remove all objects and
recompute the navmesh; return early when no scene-state descriptor is
configured; otherwise reset the three mapping dicts again, run the object
loop, and recompute the navmesh once more. -/
def initialize_THDA_scene (eng : PlacementEngine) (mgr : TemplateManager)
    (st : SimState) (cfg : HabitatConfig) : Except String SimState :=
  let st := thdaCleared st
  match cfg.scene_state with
  | none => Except.ok st
  | some objects =>
    let st := thdaResetMaps st
    match objects.foldlM (processTHDAObject eng mgr) st with
    | Except.error e => Except.error e
    | Except.ok st1 =>
      Except.ok { st1 with navmeshRecomputes := st1.navmeshRecomputes + 1 }

/-- The state changes `HabitatSim.reconfigure` performs before scene
initialization (source lines 335–347): rebuild the engine configuration,
close and re-instantiate the engine only when the requested scene differs
from the current one, re-apply the agent start state, and reset the three
id-mapping dicts to empty. -/
def reconfigurePre (st : SimState) (habitat_config : HabitatConfig) :
    SimState :=
  let is_same_scene := habitat_config.SCENE = st.current_scene
  let st := { st with simConfigRebuilds := st.simConfigRebuilds + 1 }
  let st :=
    if is_same_scene then st
    else
      { st with
        current_scene := habitat_config.SCENE
        closeCount := st.closeCount + 1
        engineInstantiations := st.engineInstantiations + 1 }
  let st := { st with agentStateUpdates := st.agentStateUpdates + 1 }
  { st with
    sim_object_to_objid_mapping := []
    objid_to_sim_object_mapping := []
    obj_sem_id_to_sem_category_mapping := [] }

/-- `HabitatSim.reconfigure` (source lines 333–349): the pre-initialization
state changes followed by `_initialize_THDA_scene`. -/
def reconfigure (eng : PlacementEngine) (mgr : TemplateManager)
    (st : SimState) (habitat_config : HabitatConfig) : Except String SimState :=
  initialize_THDA_scene eng mgr (reconfigurePre st habitat_config)
    habitat_config


/-! ## Proofs -/

theorem getattr_setattrKeep_ne {α β : Type} [DecidableEq α]
    (t : List (α × β)) (a k : α) (v : β) (h : k ≠ a) :
    getattr (setattrKeep t a v) k = getattr t k := by
  induction t with
  | nil => rfl
  | cons kv t ih =>
    by_cases hk : kv.1 = a
    · simp [setattrKeep, getattr, hk, Ne.symm h, ih]
    · simp [setattrKeep, getattr, hk, ih]

theorem getattr_setattrKeep_self {α β : Type} [DecidableEq α]
    (t : List (α × β)) (a : α) (v : β) (h : hasattr t a = true) :
    getattr (setattrKeep t a v) a = some v := by
  induction t with
  | nil => simp [hasattr] at h
  | cons kv t ih =>
    by_cases hk : kv.1 = a
    · simp [setattrKeep, getattr, hk]
    · simp [hasattr, hk] at h
      simp [setattrKeep, getattr, hk, ih h]

theorem hasattr_setattrKeep {α β : Type} [DecidableEq α]
    (t : List (α × β)) (a k : α) (v : β) :
    hasattr (setattrKeep t a v) k = hasattr t k := by
  induction t with
  | nil => rfl
  | cons kv t ih =>
    by_cases hk : kv.1 = a
    · simp [setattrKeep, hasattr, hk, ih]
    · simp [setattrKeep, hasattr, hk, ih]

theorem getattr_eq_none_of_not_hasattr {α β : Type} [DecidableEq α]
    (t : List (α × β)) (k : α) (h : hasattr t k = false) :
    getattr t k = none := by
  induction t with
  | nil => rfl
  | cons kv t ih =>
    simp [hasattr] at h
    simp [getattr, h.1, ih h.2]

theorem getattr_append {α β : Type} [DecidableEq α]
    (t s : List (α × β)) (k : α) :
    getattr (t ++ s) k =
      match getattr t k with
      | some v => some v
      | none => getattr s k := by
  induction t with
  | nil => rfl
  | cons kv t ih =>
    by_cases hk : kv.1 = k
    · simp [getattr, hk]
    · simp [getattr, hk, ih]

theorem getattr_setattr_self {α β : Type} [DecidableEq α]
    (t : List (α × β)) (a : α) (v : β) :
    getattr (setattr t a v) a = some v := by
  unfold setattr
  by_cases h : hasattr t a
  · simp [h, getattr_setattrKeep_self t a v h]
  · simp only [Bool.not_eq_true] at h
    simp [h, getattr_append, getattr_eq_none_of_not_hasattr t a h, getattr]

theorem getattr_setattr_ne {α β : Type} [DecidableEq α]
    (t : List (α × β)) (a k : α) (v : β) (h : k ≠ a) :
    getattr (setattr t a v) k = getattr t k := by
  unfold setattr
  by_cases hh : hasattr t a
  · simp [hh, getattr_setattrKeep_ne t a k v h]
  · simp only [Bool.not_eq_true] at hh
    simp only [hh, Bool.false_eq_true, if_false]
    rw [getattr_append]
    cases hg : getattr t k with
    | some v' => rfl
    | none => simp [getattr, Ne.symm h]

theorem hasattr_overwrite_step {β : Type}
    (t : List (String × β)) (a : String) (w : β) (k : String) :
    hasattr (if hasattr t a then setattr t a w else t) k = hasattr t k := by
  by_cases h : hasattr t a
  · simp [h, setattr, hasattr_setattrKeep]
  · simp [h]

theorem hasattr_overwrite_config (config_from config_to : List (String × CVal))
    (k : String) :
    hasattr (overwrite_config config_from config_to) k = hasattr config_to k := by
  induction config_from generalizing config_to with
  | nil => rfl
  | cons av rest ih =>
    show hasattr (overwrite_config rest _) k = _
    rw [ih, hasattr_overwrite_step]

theorem getattr_overwrite_config (config_from config_to : List (String × CVal))
    (k : String) :
    getattr (overwrite_config config_from config_to) k =
      if hasattr config_to k then
        match sourceValue config_from k with
        | some v => some v
        | none => getattr config_to k
      else getattr config_to k := by
  induction config_from generalizing config_to with
  | nil =>
    by_cases h : hasattr config_to k <;> simp [overwrite_config, sourceValue, h]
  | cons av rest ih =>
    show getattr (overwrite_config rest
        (if hasattr config_to av.1.toLower then
          setattr config_to av.1.toLower (if_config_to_lower av.2)
        else config_to)) k = _
    rw [ih, hasattr_overwrite_step]
    by_cases hk : hasattr config_to k
    · simp only [hk, if_true]
      cases hsv : sourceValue rest k with
      | some v => simp [sourceValue, hsv]
      | none =>
        simp only [sourceValue, hsv]
        by_cases ha : av.1.toLower = k
        · subst ha
          simp [hk, setattr, getattr_setattrKeep_self config_to _ _ hk]
        · have hne : k ≠ av.1.toLower := fun h => ha h.symm
          by_cases hta : hasattr config_to av.1.toLower
          · simp [hta, getattr_setattr_ne config_to av.1.toLower k _ hne, ha]
          · simp [hta, ha]
    · simp only [hk, if_false, Bool.false_eq_true]
      by_cases ha : av.1.toLower = k
      · subst ha
        simp [hk]
      · have hne : k ≠ av.1.toLower := fun h => ha h.symm
        by_cases hta : hasattr config_to av.1.toLower
        · simp [hta, getattr_setattr_ne config_to av.1.toLower k _ hne]
        · simp [hta]

/-- Claim C2: for every source configuration node and target structure,
`overwrite_config` sets each target attribute whose name is the lower-cased
name of a source field to that source value (keys of a nested
configuration-node value are lower-cased, scalar/list values pass through
unchanged), keeps the target's attribute set unchanged (in-place mutation),
and raises no error for source fields with no matching target attribute,
leaving those target attributes unchanged. -/
theorem overwrite_config_correct (config_from config_to : List (String × CVal))
    (k : String) (q : ℚ) (s : String) (l : List ℚ)
    (kvs : List (String × CVal)) :
    (getattr (overwrite_config config_from config_to) k =
      if hasattr config_to k then
        match sourceValue config_from k with
        | some v => some v
        | none => getattr config_to k
      else getattr config_to k)
    ∧ hasattr (overwrite_config config_from config_to) k = hasattr config_to k
    ∧ if_config_to_lower (CVal.num q) = CVal.num q
    ∧ if_config_to_lower (CVal.str s) = CVal.str s
    ∧ if_config_to_lower (CVal.list l) = CVal.list l
    ∧ if_config_to_lower (CVal.node kvs) =
        CVal.dict (kvs.map (fun kv => (kv.1.toLower, kv.2))) :=
  ⟨getattr_overwrite_config config_from config_to k,
    hasattr_overwrite_config config_from config_to k, rfl, rfl, rfl, rfl⟩

/-- Claim C4: for each of the three sensor kinds, `get_observation` fails
with the fatal missing-observation error exactly when the raw buffer keyed
by the sensor's uuid is absent from the engine's per-step output, and does
not fail on that account when the buffer is present. -/
theorem get_observation_missing_buffer (config : DepthSensorConfig)
    (uuid : String) (sim_obs : List (String × NDArray)) :
    (isError (rgb_get_observation uuid sim_obs) = true ↔
      getattr sim_obs uuid = none)
    ∧ (isError (depth_get_observation config uuid sim_obs) = true ↔
        getattr sim_obs uuid = none)
    ∧ (isError (semantic_get_observation uuid sim_obs) = true ↔
        getattr sim_obs uuid = none) := by
  cases h : getattr sim_obs uuid <;>
    simp [rgb_get_observation, depth_get_observation, semantic_get_observation,
      isError, h]

theorem npClip_bounds (x lo hi : ℚ) (h : lo ≤ hi) :
    lo ≤ npClip x lo hi ∧ npClip x lo hi ≤ hi :=
  ⟨le_min (le_max_right x lo) h, min_le_right _ _⟩

/-- Claim C3: for every raw depth buffer, the depth transform clips values to
`[MIN_DEPTH, MAX_DEPTH]` and appends a trailing singleton channel dimension;
with normalization enabled it rescales by `(x - MIN_DEPTH) / (MAX_DEPTH -
MIN_DEPTH)` so every output lies in `[0, 1]` and the exposed
observation-space bounds are `[0, 1]`; with normalization disabled every
output lies in `[MIN_DEPTH, MAX_DEPTH]` and the bounds are
`[MIN_DEPTH, MAX_DEPTH]`. -/
theorem depth_sensor_correct (config : DepthSensorConfig) (h w : Nat)
    (data : List ℚ) (hlt : config.MIN_DEPTH < config.MAX_DEPTH) :
    (depthTransform config ⟨[h, w], data⟩).shape = [h, w, 1]
    ∧ (config.NORMALIZE_DEPTH = true →
        (∀ x ∈ (depthTransform config ⟨[h, w], data⟩).data, 0 ≤ x ∧ x ≤ 1)
        ∧ depth_observation_space config =
            ⟨0, 1, [config.HEIGHT, config.WIDTH, 1]⟩)
    ∧ (config.NORMALIZE_DEPTH = false →
        (∀ x ∈ (depthTransform config ⟨[h, w], data⟩).data,
          config.MIN_DEPTH ≤ x ∧ x ≤ config.MAX_DEPTH)
        ∧ depth_observation_space config =
            ⟨config.MIN_DEPTH, config.MAX_DEPTH,
              [config.HEIGHT, config.WIDTH, 1]⟩) := by
  have hle : config.MIN_DEPTH ≤ config.MAX_DEPTH := le_of_lt hlt
  refine ⟨?_, ?_, ?_⟩
  · by_cases hn : config.NORMALIZE_DEPTH <;>
      simp [depthTransform, expandDimsAxis2, hn]
  · intro hn
    refine ⟨?_, ?_⟩
    · intro x hx
      simp only [depthTransform, hn, if_true, List.mem_map] at hx
      obtain ⟨y, ⟨z, _, rfl⟩, rfl⟩ := hx
      obtain ⟨h1, h2⟩ := npClip_bounds z config.MIN_DEPTH config.MAX_DEPTH hle
      constructor
      · exact div_nonneg (sub_nonneg.mpr h1) (sub_nonneg.mpr hle)
      · rw [div_le_one (sub_pos.mpr hlt)]
        exact sub_le_sub_right h2 _
    · simp [depth_observation_space, min_depth_value, max_depth_value, hn]
  · intro hn
    refine ⟨?_, ?_⟩
    · intro x hx
      simp only [depthTransform, hn, Bool.false_eq_true, if_false,
        List.mem_map] at hx
      obtain ⟨z, _, rfl⟩ := hx
      exact npClip_bounds z config.MIN_DEPTH config.MAX_DEPTH hle
    · simp [depth_observation_space, min_depth_value, max_depth_value, hn]

/-- Witness for Claim C3 at a concrete configuration and raw buffer. -/
theorem depth_sensor_correct_witness :
    ((0 : ℚ) < 10)
    ∧ ((depthTransform ⟨0, 10, true, 4, 5⟩ ⟨[2, 3], [-1, 5, 27]⟩).shape = [2, 3, 1]
      ∧ (true = true →
          (∀ x ∈ (depthTransform ⟨0, 10, true, 4, 5⟩ ⟨[2, 3], [-1, 5, 27]⟩).data,
            0 ≤ x ∧ x ≤ 1)
          ∧ depth_observation_space ⟨0, 10, true, 4, 5⟩ = ⟨0, 1, [4, 5, 1]⟩)
      ∧ (true = false →
          (∀ x ∈ (depthTransform ⟨0, 10, true, 4, 5⟩ ⟨[2, 3], [-1, 5, 27]⟩).data,
            0 ≤ x ∧ x ≤ 10)
          ∧ depth_observation_space ⟨0, 10, true, 4, 5⟩ = ⟨0, 10, [4, 5, 1]⟩)) :=
  ⟨by norm_num, depth_sensor_correct ⟨0, 10, true, 4, 5⟩ 2 3 [-1, 5, 27] (by norm_num)⟩

/-- Claim C5: for every position, rotation and `reset_sensors` flag,
`set_agent_state` applies exactly the given body pose, hands the engine a
state with the sensor-state overrides cleared (so sensors follow the body),
resets the sensor-local changes exactly unless `reset_sensors` is false, and
always returns `True` at the API level. -/
theorem set_agent_state_correct (defaults : List (String × SensorPose))
    (agent : Agent) (position : Vec3) (rotation : Quat) (reset_sensors : Bool) :
    (set_agent_state defaults agent position rotation reset_sensors).2 = true
    ∧ (set_agent_state defaults agent position rotation reset_sensors).1.position
        = position
    ∧ (set_agent_state defaults agent position rotation reset_sensors).1.rotation
        = rotation
    ∧ (set_agent_state defaults agent position rotation reset_sensors).1.sensor_states
        = []
    ∧ (set_agent_state defaults agent position rotation reset_sensors).1.sensor_offsets
        = (if reset_sensors then defaults else agent.sensor_offsets) :=
  ⟨rfl, rfl, rfl, rfl, rfl⟩

/-- Claim C10: `get_observations_at` never returns `None`: the observation
component is always present; when `position` or `rotation` is `None` no
relocation is attempted and the observations are captured at the agent's
current pose (the agent is untouched when the new pose is kept); and with
`keep_agent_at_new_pose = false` the original body pose is restored before
returning. -/
theorem get_observations_at_total {Obs : Type} (getObs : Agent → Obs)
    (defaults : List (String × SensorPose)) (agent : Agent)
    (position : Option Vec3) (rotation : Option Quat) (keep : Bool) :
    ((get_observations_at getObs defaults agent position rotation keep).1.isSome
        = true)
    ∧ (get_observations_at getObs defaults agent none rotation keep).1
        = some (getObs agent)
    ∧ (get_observations_at getObs defaults agent position none keep).1
        = some (getObs agent)
    ∧ (get_observations_at getObs defaults agent none rotation true).2 = agent
    ∧ ((get_observations_at getObs defaults agent position rotation false).2.position
          = agent.position
      ∧ (get_observations_at getObs defaults agent position rotation false).2.rotation
          = agent.rotation) := by
  cases position <;> cases rotation <;>
    simp [get_observations_at, set_agent_state, agent_set_state, agent_get_state]

/-- Claim C8: `geodesic_distance` reuses an already-populated episode cache
(only the requested start is updated and the goals of the cached query are
kept), otherwise builds a fresh multi-goal query normalizing a single goal
into a one-element list; after the search the populated query is stored back
into the episode's cache exactly when an episode was supplied. -/
theorem geodesic_distance_cache (find_path : Vec3 → List Vec3 → ℚ)
    (a v : Vec3) (vs : List Vec3) (b : GoalSpec) (p : MultiGoalShortestPath) :
    geodesic_distance find_path a b (some ⟨some p⟩) =
      (find_path a p.requested_ends,
        some ⟨some ⟨p.requested_ends, a, find_path a p.requested_ends⟩⟩)
    ∧ geodesic_distance find_path a (GoalSpec.single v) none
        = (find_path a [v], none)
    ∧ geodesic_distance find_path a (GoalSpec.multiple vs) none
        = (find_path a vs, none)
    ∧ geodesic_distance find_path a (GoalSpec.single v) (some ⟨none⟩)
        = (find_path a [v], some ⟨some ⟨[v], a, find_path a [v]⟩⟩)
    ∧ geodesic_distance find_path a (GoalSpec.multiple vs) (some ⟨none⟩)
        = (find_path a vs, some ⟨some ⟨vs, a, find_path a vs⟩⟩) := by
  refine ⟨?_, rfl, rfl, rfl, rfl⟩
  cases p
  rfl

theorem sampleLoop_tries_bound (eng : PlacementEngine) (fnav mup : Bool) :
    ∀ (n k : Nat) (pose : ObjPose),
      k ≤ (sampleLoop eng fnav mup k n pose).2.1
      ∧ (sampleLoop eng fnav mup k n pose).2.1 ≤ k + n := by
  intro n
  induction n with
  | zero => intro k pose; simp [sampleLoop]
  | succ n ih =>
    intro k pose
    cases hc : eng.contact (sampleAttempt eng fnav mup k pose) with
    | true =>
      obtain ⟨h1, h2⟩ := ih (k + 1) (sampleAttempt eng fnav mup k pose)
      simp only [sampleLoop, hc, if_true]
      omega
    | false => simp [sampleLoop, hc]

theorem sampleLoop_ok_iff (eng : PlacementEngine) (fnav mup : Bool) :
    ∀ (n k : Nat) (pose : ObjPose),
      (sampleLoop eng fnav mup k n pose).1 = true ↔
        ∃ j, j < n ∧
          eng.contact (poseIter eng fnav mup k (j + 1) pose) = false := by
  intro n
  induction n with
  | zero => intro k pose; simp [sampleLoop]
  | succ n ih =>
    intro k pose
    cases hc : eng.contact (sampleAttempt eng fnav mup k pose) with
    | true =>
      simp only [sampleLoop, hc, if_true]
      rw [ih (k + 1) (sampleAttempt eng fnav mup k pose)]
      constructor
      · rintro ⟨j, hj, hcon⟩
        exact ⟨j + 1, by omega, hcon⟩
      · rintro ⟨j, hj, hcon⟩
        cases j with
        | zero =>
          exfalso
          have hcf : eng.contact (sampleAttempt eng fnav mup k pose) = false := hcon
          rw [hc] at hcf
          exact Bool.noConfusion hcf
        | succ j => exact ⟨j, by omega, hcon⟩
    | false =>
      simp only [sampleLoop, hc, Bool.false_eq_true, if_false]
      constructor
      · intro _
        exact ⟨0, by omega, hc⟩
      · intro _
        trivial

theorem sampleLoop_fail (eng : PlacementEngine) (fnav mup : Bool) :
    ∀ (n k : Nat) (pose : ObjPose),
      (sampleLoop eng fnav mup k n pose).1 = false →
        (sampleLoop eng fnav mup k n pose).2.2 = poseIter eng fnav mup k n pose
        ∧ (sampleLoop eng fnav mup k n pose).2.1 = k + n := by
  intro n
  induction n with
  | zero => intro k pose _; simp [sampleLoop, poseIter]
  | succ n ih =>
    intro k pose hfail
    cases hc : eng.contact (sampleAttempt eng fnav mup k pose) with
    | true =>
      simp only [sampleLoop, hc, if_true] at hfail ⊢
      obtain ⟨h1, h2⟩ := ih (k + 1) (sampleAttempt eng fnav mup k pose) hfail
      exact ⟨h1, by omega⟩
    | false =>
      exfalso
      simp only [sampleLoop, hc, Bool.false_eq_true, if_false] at hfail
      exact Bool.noConfusion hfail

/-- Claim C7: with the default source (`from_navmesh = True`) and
`maintain_object_up = True`, given a loaded pathfinder, for every
`max_tries ≥ 0` the retry loop of `sample_object_state` performs at most
`max_tries` attempts and terminates; it returns success exactly when some
attempt within the bound passes the contact test; with `max_tries = 0` it
fails immediately with no attempt; and on exhausting `max_tries` it fails
with the object left at its last attempted pose. -/
theorem sample_object_state_retry (eng : PlacementEngine)
    (obj : SampledObject) (max_tries : Nat)
    (hpf : eng.pathfinderLoaded = true) :
    (sample_object_state eng obj true true max_tries none).tries ≤ max_tries
    ∧ ((sample_object_state eng obj true true max_tries none).ok = true ↔
        ∃ j, j < max_tries ∧
          eng.contact (poseIter eng true true 0 (j + 1) obj.pose) = false)
    ∧ ((sample_object_state eng obj true true 0 none).ok = false
      ∧ (sample_object_state eng obj true true 0 none).tries = 0
      ∧ (sample_object_state eng obj true true 0 none).pose = obj.pose)
    ∧ ((sample_object_state eng obj true true max_tries none).ok = false →
        (sample_object_state eng obj true true max_tries none).pose =
          poseIter eng true true 0 max_tries obj.pose
        ∧ (sample_object_state eng obj true true max_tries none).tries
            = max_tries) := by
  have hgate : ∀ m : Nat, sample_object_state eng obj true true m none =
      { ok := (sampleLoop eng true true 0 m obj.pose).1
        tries := (sampleLoop eng true true 0 m obj.pose).2.1
        pose := (sampleLoop eng true true 0 m obj.pose).2.2
        log :=
          if obj.motionType = MotionType.STATIC then
            ["sample_object_state : Object is STATIC, aborting."]
          else [] } := by
    intro m
    simp [sample_object_state, hpf]
  refine ⟨?_, ?_, ?_, ?_⟩
  · rw [hgate]
    simpa using (sampleLoop_tries_bound eng true true max_tries 0 obj.pose).2
  · rw [hgate]
    exact sampleLoop_ok_iff eng true true max_tries 0 obj.pose
  · rw [hgate]
    exact ⟨rfl, rfl, rfl⟩
  · rw [hgate]
    intro hfail
    have := sampleLoop_fail eng true true max_tries 0 obj.pose hfail
    simpa using this

/-- A fixture engine whose contact test always reports contact. -/
def constEngine : PlacementEngine :=
  { pathfinderLoaded := true
    randNavPoint := fun _ => ⟨1, 2, 3⟩
    randBoxPoint := fun _ => ⟨0, 0, 0⟩
    randYRot := fun _ => quatId
    randQuat := fun _ => quatId
    bbSizeY := fun _ => 1
    contact := fun _ => true }

/-- A fixture engine whose contact test never reports contact. -/
def freeEngine : PlacementEngine := { constEngine with contact := fun _ => false }

/-- Witness for Claim C7: two exhausted attempts on a fixture engine that
always reports contact. -/
theorem sample_object_state_retry_witness :
    constEngine.pathfinderLoaded = true
    ∧ ((sample_object_state constEngine ⟨defaultObjPose, MotionType.DYNAMIC⟩
          true true 2 none).tries ≤ 2
      ∧ ((sample_object_state constEngine ⟨defaultObjPose, MotionType.DYNAMIC⟩
            true true 2 none).ok = true ↔
          ∃ j, j < 2 ∧
            constEngine.contact
              (poseIter constEngine true true 0 (j + 1) defaultObjPose) = false)
      ∧ ((sample_object_state constEngine ⟨defaultObjPose, MotionType.DYNAMIC⟩
            true true 0 none).ok = false
        ∧ (sample_object_state constEngine ⟨defaultObjPose, MotionType.DYNAMIC⟩
            true true 0 none).tries = 0
        ∧ (sample_object_state constEngine ⟨defaultObjPose, MotionType.DYNAMIC⟩
            true true 0 none).pose = defaultObjPose)
      ∧ ((sample_object_state constEngine ⟨defaultObjPose, MotionType.DYNAMIC⟩
            true true 2 none).ok = false →
          (sample_object_state constEngine ⟨defaultObjPose, MotionType.DYNAMIC⟩
            true true 2 none).pose =
              poseIter constEngine true true 0 2 defaultObjPose
          ∧ (sample_object_state constEngine ⟨defaultObjPose, MotionType.DYNAMIC⟩
              true true 2 none).tries = 2)) :=
  ⟨rfl, sample_object_state_retry constEngine ⟨defaultObjPose, MotionType.DYNAMIC⟩ 2 rfl⟩

/-- Claim C1 (code evidence): on an object whose motion type is STATIC, with
a loaded pathfinder and a contact-free first candidate, `sample_object_state`
emits the STATIC "aborting" diagnostic yet proceeds — it returns success and
mutates the object's translation, because the check at source lines 469–473
has no early return. -/
theorem sample_object_state_static_not_aborted :
    (sample_object_state freeEngine ⟨defaultObjPose, MotionType.STATIC⟩
        true true 1 none).log =
      ["sample_object_state : Object is STATIC, aborting."]
    ∧ (sample_object_state freeEngine ⟨defaultObjPose, MotionType.STATIC⟩
        true true 1 none).ok = true
    ∧ (sample_object_state freeEngine ⟨defaultObjPose, MotionType.STATIC⟩
          true true 1 none).pose.translation ≠ defaultObjPose.translation := by
  refine ⟨rfl, rfl, ?_⟩
  intro h
  have hx := congrArg Vec3.x h
  norm_num [sample_object_state, sampleLoop, sampleAttempt, freeEngine,
    constEngine, vadd, defaultObjPose, quatId, quatMul,
    scene_collision_margin] at hx

theorem thda_fold_preserves (eng : PlacementEngine) (mgr : TemplateManager) :
    ∀ (ds : List ObjectDesc) (st st' : SimState),
      ds.foldlM (processTHDAObject eng mgr) st = Except.ok st' →
      st'.current_scene = st.current_scene
      ∧ st'.engineInstantiations = st.engineInstantiations
      ∧ st'.closeCount = st.closeCount
      ∧ st'.simConfigRebuilds = st.simConfigRebuilds
      ∧ st'.agentStateUpdates = st.agentStateUpdates := by
  intro ds
  induction ds with
  | nil =>
    intro st st' hok
    simp only [List.foldlM_nil, pure, Except.pure, Except.ok.injEq] at hok
    subst hok
    exact ⟨rfl, rfl, rfl, rfl, rfl⟩
  | cons d ds ih =>
    intro st st' hok
    rw [List.foldlM_cons] at hok
    cases hp : processTHDAObject eng mgr st d with
    | error e =>
      rw [hp] at hok
      simp only [Bind.bind, Except.bind] at hok
      exact Except.noConfusion hok
    | ok st1 =>
      rw [hp] at hok
      have hok1 : ds.foldlM (processTHDAObject eng mgr) st1 = Except.ok st' := by
        simpa only [Bind.bind, Except.bind] using hok
      have hfields := ih st1 st' hok1
      cases hr : resolveTemplate mgr d with
      | error e =>
        rw [processTHDAObject, hr] at hp
        exact Except.noConfusion hp
      | ok u =>
        rw [processTHDAObject, hr] at hp
        simp only [Except.ok.injEq] at hp
        subst hp
        simpa only [thdaStep] using hfields

theorem reconfigurePre_same (st : SimState) (cfg : HabitatConfig)
    (hscene : cfg.SCENE = st.current_scene) :
    reconfigurePre st cfg =
      { st with
        simConfigRebuilds := st.simConfigRebuilds + 1
        agentStateUpdates := st.agentStateUpdates + 1
        sim_object_to_objid_mapping := []
        objid_to_sim_object_mapping := []
        obj_sem_id_to_sem_category_mapping := [] } := by
  simp [reconfigurePre, hscene]

theorem reconfigurePre_maps (st : SimState) (cfg : HabitatConfig)
    (m1 m2 m3 : List (Nat × Nat)) :
    reconfigurePre
      { st with
        sim_object_to_objid_mapping := m1
        objid_to_sim_object_mapping := m2
        obj_sem_id_to_sem_category_mapping := m3 } cfg =
      reconfigurePre st cfg := by
  by_cases h : cfg.SCENE = st.current_scene <;> simp [reconfigurePre, h]

/-- Claim C6: reconfiguring with an unchanged scene identity neither closes
nor re-instantiates the engine (only the engine configuration is rebuilt and
the agent start-state re-applied), while the three id-mapping tables are
still reset to empty: the outcome is independent of the incoming tables, and
with no scene-state descriptor they remain empty at the end. -/
theorem reconfigure_same_scene (eng : PlacementEngine) (mgr : TemplateManager)
    (st st' : SimState) (cfg : HabitatConfig)
    (hscene : cfg.SCENE = st.current_scene)
    (hok : reconfigure eng mgr st cfg = Except.ok st') :
    st'.engineInstantiations = st.engineInstantiations
    ∧ st'.closeCount = st.closeCount
    ∧ st'.current_scene = st.current_scene
    ∧ st'.simConfigRebuilds = st.simConfigRebuilds + 1
    ∧ st'.agentStateUpdates = st.agentStateUpdates + 1
    ∧ (∀ m1 m2 m3 : List (Nat × Nat),
        reconfigure eng mgr
          { st with
            sim_object_to_objid_mapping := m1
            objid_to_sim_object_mapping := m2
            obj_sem_id_to_sem_category_mapping := m3 } cfg = Except.ok st')
    ∧ (cfg.scene_state = none →
        st'.sim_object_to_objid_mapping = []
        ∧ st'.objid_to_sim_object_mapping = []
        ∧ st'.obj_sem_id_to_sem_category_mapping = []) := by
  have hmaps : ∀ m1 m2 m3 : List (Nat × Nat),
      reconfigure eng mgr
        { st with
          sim_object_to_objid_mapping := m1
          objid_to_sim_object_mapping := m2
          obj_sem_id_to_sem_category_mapping := m3 } cfg = Except.ok st' := by
    intro m1 m2 m3
    rw [reconfigure, reconfigurePre_maps]
    exact hok
  rw [reconfigure] at hok
  cases hss : cfg.scene_state with
  | none =>
    simp only [initialize_THDA_scene, hss, Except.ok.injEq] at hok
    subst hok
    refine ⟨?_, ?_, ?_, ?_, ?_, hmaps, ?_⟩ <;>
      simp [reconfigurePre_same st cfg hscene, thdaCleared]
  | some ds =>
    simp only [initialize_THDA_scene, hss] at hok
    cases hf : ds.foldlM (processTHDAObject eng mgr)
        (thdaResetMaps (thdaCleared (reconfigurePre st cfg))) with
    | error e =>
      rw [hf] at hok
      exact Except.noConfusion hok
    | ok stM =>
      rw [hf] at hok
      simp only [Except.ok.injEq] at hok
      subst hok
      have hfields := thda_fold_preserves eng mgr ds _ stM hf
      rw [reconfigurePre_same st cfg hscene] at hfields
      simp only [thdaResetMaps, thdaCleared] at hfields
      exact ⟨hfields.2.1, hfields.2.2.1, hfields.1, hfields.2.2.2.1,
        hfields.2.2.2.2, hmaps, fun hnone => Option.noConfusion hnone⟩

theorem thda_fold_objects (eng : PlacementEngine) (mgr : TemplateManager) :
    ∀ (ds : List ObjectDesc) (st st' : SimState),
      ds.foldlM (processTHDAObject eng mgr) st = Except.ok st' →
      (ds.map ObjectDesc.object_id).Nodup →
      (∀ o ∈ st.objects,
        o.motionType = MotionType.STATIC
        ∧ getattr st.sim_object_to_objid_mapping o.instanceId = some o.descId
        ∧ getattr st.objid_to_sim_object_mapping o.descId = some o.instanceId
        ∧ o.instanceId < st.nextObjectId
        ∧ o.descId ∉ ds.map ObjectDesc.object_id) →
      ∀ o ∈ st'.objects,
        o.motionType = MotionType.STATIC
        ∧ getattr st'.sim_object_to_objid_mapping o.instanceId = some o.descId
        ∧ getattr st'.objid_to_sim_object_mapping o.descId = some o.instanceId := by
  intro ds
  induction ds with
  | nil =>
    intro st st' hok _ hinv
    simp only [List.foldlM_nil, pure, Except.pure, Except.ok.injEq] at hok
    subst hok
    intro o ho
    exact ⟨(hinv o ho).1, (hinv o ho).2.1, (hinv o ho).2.2.1⟩
  | cons d ds ih =>
    intro st st' hok hnodup hinv
    rw [List.foldlM_cons] at hok
    cases hp : processTHDAObject eng mgr st d with
    | error e =>
      rw [hp] at hok
      simp only [Bind.bind, Except.bind] at hok
      exact Except.noConfusion hok
    | ok st1 =>
      rw [hp] at hok
      have hok1 : ds.foldlM (processTHDAObject eng mgr) st1 = Except.ok st' := by
        simpa only [Bind.bind, Except.bind] using hok
      simp only [List.map_cons, List.nodup_cons] at hnodup
      cases hr : resolveTemplate mgr d with
      | error e =>
        rw [processTHDAObject, hr] at hp
        exact Except.noConfusion hp
      | ok u =>
        rw [processTHDAObject, hr] at hp
        simp only [Except.ok.injEq] at hp
        subst hp
        refine ih (thdaStep eng st d) st' hok1 hnodup.2 ?_
        intro o ho
        simp only [thdaStep, List.mem_append, List.mem_singleton] at ho
        cases ho with
        | inl hold =>
          obtain ⟨hm, hs, hb, hlt, hnin⟩ := hinv o hold
          simp only [List.map_cons, List.mem_cons, not_or] at hnin
          refine ⟨hm, ?_, ?_, ?_, hnin.2⟩
          · show getattr
              (setattr st.sim_object_to_objid_mapping st.nextObjectId
                d.object_id) o.instanceId = some o.descId
            rw [getattr_setattr_ne st.sim_object_to_objid_mapping
              st.nextObjectId o.instanceId d.object_id (Nat.ne_of_lt hlt)]
            exact hs
          · show getattr
              (setattr st.objid_to_sim_object_mapping d.object_id
                st.nextObjectId) o.descId = some o.instanceId
            rw [getattr_setattr_ne st.objid_to_sim_object_mapping
              d.object_id o.descId st.nextObjectId hnin.1]
            exact hb
          · show o.instanceId < st.nextObjectId + 1
            omega
        | inr hnew =>
          subst hnew
          refine ⟨rfl, ?_, ?_, ?_, ?_⟩
          · exact getattr_setattr_self st.sim_object_to_objid_mapping
              st.nextObjectId d.object_id
          · exact getattr_setattr_self st.objid_to_sim_object_mapping
              d.object_id st.nextObjectId
          · show st.nextObjectId < st.nextObjectId + 1
            omega
          · exact hnodup.1

/-- Claim C9: when scene initialization from a scene-state descriptor (with
pairwise-distinct stable object ids) completes, every object instantiated
during it has motion type STATIC — none is left DYNAMIC — and each object's
engine instance id and stable descriptor id are recorded in both id-mapping
tables. -/
theorem thda_scene_objects_static (eng : PlacementEngine)
    (mgr : TemplateManager) (st st' : SimState) (cfg : HabitatConfig)
    (ds : List ObjectDesc)
    (hss : cfg.scene_state = some ds)
    (hnodup : (ds.map ObjectDesc.object_id).Nodup)
    (hok : initialize_THDA_scene eng mgr st cfg = Except.ok st') :
    ∀ o ∈ st'.objects,
      o.motionType = MotionType.STATIC
      ∧ getattr st'.sim_object_to_objid_mapping o.instanceId = some o.descId
      ∧ getattr st'.objid_to_sim_object_mapping o.descId = some o.instanceId := by
  simp only [initialize_THDA_scene, hss] at hok
  cases hf : ds.foldlM (processTHDAObject eng mgr)
      (thdaResetMaps (thdaCleared st)) with
  | error e =>
    rw [hf] at hok
    exact Except.noConfusion hok
  | ok stM =>
    rw [hf] at hok
    simp only [Except.ok.injEq] at hok
    subst hok
    intro o ho
    refine thda_fold_objects eng mgr ds (thdaResetMaps (thdaCleared st))
      stM hf hnodup ?_ o ho
    intro o2 ho2
    simp [thdaResetMaps, thdaCleared] at ho2

/-- A fixture template manager resolving every template by file handle. -/
def mgrW : TemplateManager := ⟨fun _ => ["handle"], fun _ => [0]⟩

/-- A fixture simulator state with non-empty id-mapping tables. -/
def stW : SimState :=
  { current_scene := "scene.glb"
    engineInstantiations := 1
    closeCount := 0
    simConfigRebuilds := 3
    agentStateUpdates := 2
    navmeshRecomputes := 4
    nextObjectId := 7
    objects := []
    sim_object_to_objid_mapping := [(5, 11)]
    objid_to_sim_object_mapping := [(11, 5)]
    obj_sem_id_to_sem_category_mapping := [(11, 9)] }

def cfgW : HabitatConfig := ⟨"scene.glb", none⟩

/-- The state `reconfigure` leaves behind on `stW` with `cfgW`. -/
def stW1 : SimState :=
  { current_scene := "scene.glb"
    engineInstantiations := 1
    closeCount := 0
    simConfigRebuilds := 4
    agentStateUpdates := 3
    navmeshRecomputes := 5
    nextObjectId := 7
    objects := []
    sim_object_to_objid_mapping := []
    objid_to_sim_object_mapping := []
    obj_sem_id_to_sem_category_mapping := [] }

/-- Witness for Claim C6 on the fixture state. -/
theorem reconfigure_same_scene_witness :
    cfgW.SCENE = stW.current_scene
    ∧ reconfigure constEngine mgrW stW cfgW = Except.ok stW1
    ∧ (stW1.engineInstantiations = stW.engineInstantiations
      ∧ stW1.closeCount = stW.closeCount
      ∧ stW1.current_scene = stW.current_scene
      ∧ stW1.simConfigRebuilds = stW.simConfigRebuilds + 1
      ∧ stW1.agentStateUpdates = stW.agentStateUpdates + 1
      ∧ (∀ m1 m2 m3 : List (Nat × Nat),
          reconfigure constEngine mgrW
            { stW with
              sim_object_to_objid_mapping := m1
              objid_to_sim_object_mapping := m2
              obj_sem_id_to_sem_category_mapping := m3 } cfgW
            = Except.ok stW1)
      ∧ (cfgW.scene_state = none →
          stW1.sim_object_to_objid_mapping = []
          ∧ stW1.objid_to_sim_object_mapping = []
          ∧ stW1.obj_sem_id_to_sem_category_mapping = [])) :=
  ⟨rfl, rfl, reconfigure_same_scene constEngine mgrW stW stW1 cfgW rfl rfl⟩

/-- A fixture scene-state descriptor with two placed objects. -/
def dsW : List ObjectDesc :=
  [⟨"tmpl1", some ⟨1, 1, 1⟩, some quatId, none, 11, 5⟩,
    ⟨"tmpl2", some ⟨2, 0, 2⟩, none, none, 12, 6⟩]

def cfgW2 : HabitatConfig := ⟨"scene.glb", some dsW⟩

/-- The state scene initialization leaves behind on `stW` with `cfgW2`. -/
def stW2 : SimState :=
  { current_scene := "scene.glb"
    engineInstantiations := 1
    closeCount := 0
    simConfigRebuilds := 3
    agentStateUpdates := 2
    navmeshRecomputes := 6
    nextObjectId := 9
    objects :=
      [⟨7, 11, 5, ⟨⟨1, 1, 1⟩, quatId⟩, MotionType.STATIC⟩,
        ⟨8, 12, 6, ⟨⟨2, 0, 2⟩, quatId⟩, MotionType.STATIC⟩]
    sim_object_to_objid_mapping := [(7, 11), (8, 12)]
    objid_to_sim_object_mapping := [(11, 7), (12, 8)]
    obj_sem_id_to_sem_category_mapping := [(11, 5), (12, 6)] }

/-- Witness for Claim C9 on the fixture descriptor. -/
theorem thda_scene_objects_static_witness :
    cfgW2.scene_state = some dsW
    ∧ (dsW.map ObjectDesc.object_id).Nodup
    ∧ initialize_THDA_scene constEngine mgrW stW cfgW2 = Except.ok stW2
    ∧ (∀ o ∈ stW2.objects,
        o.motionType = MotionType.STATIC
        ∧ getattr stW2.sim_object_to_objid_mapping o.instanceId = some o.descId
        ∧ getattr stW2.objid_to_sim_object_mapping o.descId
            = some o.instanceId) :=
  ⟨rfl, by decide, rfl,
    thda_scene_objects_static constEngine mgrW stW stW2 cfgW2 dsW rfl
      (by decide) rfl⟩

end HabitatSimModel
